import Mathlib

/-
  Verification of the LUMI-with-LLM streaming-suggestions core.

  Shallow embedding of three source files:
  - the React chat component (its handleSubmit stream-consumer loop),
  - the Express streaming route (the relay handler),
  - OllamaService (chat, chatStream, stopStream, getContentTypePrompt,
    getH5PContentSuggestions).

  JavaScript strings are modelled as Lean String values; each network read
  delivers the text the stateless TextDecoder produced for that read.
-/

/-- Left brace as a string, used to assemble JSON wire text. -/
def lbrace : String := "\x7b"

/-- Right brace as a string, used to assemble JSON wire text. -/
def rbrace : String := "\x7d"

/-- Splits a character list at every newline, keeping empty pieces,
exactly like the JavaScript expression chunk.split(backslash-n):
the result always has one more piece than there are newlines. -/
def splitOnNlChars : List Char → List (List Char)
  | [] => [[]]
  | c :: cs =>
    let r := splitOnNlChars cs
    if c = '\n' then [] :: r
    else
      match r with
      | [] => [[c]]
      | l :: ls => (c :: l) :: ls

/-- Model of the JavaScript split on a newline separator, on strings. -/
def jsSplitNl (s : String) : List String :=
  (splitOnNlChars s.data).map String.mk

/-- Whitespace characters relevant to the inputs that occur on this wire
(the JavaScript trim removes a larger set; only these arise here). -/
def jsWhitespace (c : Char) : Bool :=
  c = ' ' || c = '\t' || c = '\n' || c = '\r'

/-- Truthiness of line.trim() in the source guards: the line holds at
least one non-whitespace character. -/
def lineNonblank (line : String) : Bool :=
  line.data.any (fun c => !(jsWhitespace c))

/-- Consumes an expected head from a character list, character by
character; none when the list does not begin with that head. -/
def stripHead : List Char → List Char → Option (List Char)
  | [], cs => some cs
  | _ :: _, [] => none
  | e :: es, c :: cs => if c = e then stripHead es cs else none

/-- Opening characters of one serialized fragment record on the wire. -/
def wireHead : List Char := (lbrace ++ "\"response\":\"").data

/-- Closing characters of one serialized fragment record on the wire. -/
def wireTail : List Char := ("\"" ++ rbrace).data

/-- Model of JSON.parse applied to one line followed by reading its
response field, restricted to the exact wire shape the relay emits:
a record with a single response field whose string content holds no
quote and no backslash. Every line outside that shape is reported as a
parse failure; for every line any theorem below instantiates, this
agrees with JSON.parse (the split halves of a wire line are not valid
JSON, and whole wire lines are parsed to their response content). -/
def parseLine (line : String) : Option String :=
  match stripHead wireHead line.data with
  | none => none
  | some rest =>
    match stripHead wireTail.reverse rest.reverse with
    | none => none
    | some innerRev =>
      if innerRev.any (fun c => c = '"' || c = '\\') then none
      else some (String.mk innerRev.reverse)

/-- Serialization the relay performs for one upstream chunk:
JSON.stringify of a record with one response field, plus a newline.
Faithful for chunk text containing no character JSON.stringify would
escape, which covers every chunk used below. -/
def serializeResponseLine (chunk : String) : String :=
  lbrace ++ "\"response\":\"" ++ chunk ++ "\"" ++ rbrace ++ "\n"

/-- Role of a chat message, the role union type of the React component. -/
inductive Role
  | user
  | assistant
deriving DecidableEq

/-- One entry of the chat log: the Message interface of the React
component. The Date timestamp is modelled as a natural number. -/
structure Message where
  role : Role
  content : String
  timestamp : Nat
deriving DecidableEq

/-- The setMessages updater the consumer runs for one parsed fragment:
copy the list, take its last element, and when that element has the
assistant role append the delta to its content. On an empty list the
source dereferences an undefined element and throws, modelled as none. -/
def applyFragment (msgs : List Message) (delta : String) : Option (List Message) :=
  match msgs.getLast? with
  | none => none
  | some last =>
    if last.role = Role.assistant then
      some (msgs.dropLast ++ [{ last with content := last.content ++ delta }])
    else
      some msgs

/-- Consumer handling of one split-off line: blank lines are skipped,
lines that fail to parse are skipped by the catch, parsed lines are
applied to the log. -/
def processLineMsgs (msgs : List Message) (line : String) : Option (List Message) :=
  if lineNonblank line then
    match parseLine line with
    | some delta => applyFragment msgs delta
    | none => some msgs
  else some msgs

/-- Consumer handling of one decoded read: split on newlines and fold
the lines, exactly as the for-loop over chunk.split does. -/
def processChunk (msgs : List Message) (chunk : String) : Option (List Message) :=
  (jsSplitNl chunk).foldlM processLineMsgs msgs

/-- Consumer handling of the whole sequence of decoded reads, the
while-loop around reader.read in handleSubmit. -/
def processStream (msgs : List Message) (chunks : List String) : Option (List Message) :=
  chunks.foldlM processChunk msgs

/-- Guarded parse of one split-off line as chatStream performs it: the
delta the callback receives, when the line is non-blank and parses. -/
def lineDelta (line : String) : Option String :=
  if lineNonblank line then parseLine line else none

/-- Deltas the chatStream loop emits for one decoded read. -/
def chunkDeltas (chunk : String) : List String :=
  (jsSplitNl chunk).filterMap lineDelta

/-- One observable event on the chatStream transport: either a read
resolves with a decoded chunk, or the AbortController has fired and the
pending read rejects with an AbortError. -/
inductive StreamEvent
  | read (chunk : String)
  | abortSignal
deriving DecidableEq

/-- Deltas chatStream delivers to its callback over a whole event
trace. An abortSignal makes the awaited read reject with an AbortError;
the catch in chatStream recognises that name and returns, so no event
after it is processed and no further delta is emitted. -/
def streamDeltas : List StreamEvent → List String
  | [] => []
  | StreamEvent.read c :: rest => chunkDeltas c ++ streamDeltas rest
  | StreamEvent.abortSignal :: _ => []

/-- Handle held by one AbortController instance. -/
structure AbortHandle where
  fired : Bool
deriving DecidableEq

/-- Mutable fields of the OllamaService class. -/
structure OllamaServiceState where
  baseUrl : String
  model : String
  abortController : Option AbortHandle
deriving DecidableEq

/-- Model of OllamaService.stopStream: when a controller is held, fire
it (the Boolean result records that abort was invoked) and drop it;
otherwise do nothing. The source method can throw on no path. -/
def stopStream (s : OllamaServiceState) : OllamaServiceState × Bool :=
  match s.abortController with
  | some _ => ({ s with abortController := none }, true)
  | none => (s, false)

/-- Effect on the service state of the finally block of chatStream,
which runs when the stream ends naturally or by abort: the controller
slot is cleared. -/
def chatStreamCleanup (s : OllamaServiceState) : OllamaServiceState :=
  { s with abortController := none }

/-- Table of type-specific guidance strings inside getContentTypePrompt,
in source order; the record lookup is modelled as an association list. -/
def contentTypePrompts : List (String × String) :=
  [("H5P.InteractiveVideo", "Consider: timestamps for interactions, types of questions to ask at each point, visual cues, and branching scenarios."),
   ("H5P.Course", "Structure your course with: main topics, subtopics, learning objectives, assessment criteria, and progression rules."),
   ("H5P.QuestionSet", "Include variety in question types: multiple choice, true/false, fill in the blanks, matching, and drag-and-drop."),
   ("H5P.InteractiveBook", "Plan chapters with: multimedia content, interactive elements, self-assessment, and navigation structure."),
   ("H5P.Timeline", "Organize events with: dates, descriptions, media elements, and connections between events."),
   ("H5P.BranchingScenario", "Design decision trees with: multiple paths, consequences, feedback, and learning outcomes.")]

/-- Fallback guidance returned for every content type not in the table. -/
def fallbackGuidance : String :=
  "Consider the best way to present this content interactively."

/-- Standard members inherited from Object.prototype, which a bracket
lookup on a plain object literal reaches through the prototype chain
when the key is not an own property. -/
def objectProtoMembers : List String :=
  ["constructor", "hasOwnProperty", "isPrototypeOf", "propertyIsEnumerable",
   "toLocaleString", "toString", "valueOf",
   "__defineGetter__", "__defineSetter__", "__lookupGetter__", "__lookupSetter__",
   "__proto__"]

/-- Value of the JS expression table[contentType] or-else fallback:
either a string, or an inherited Object.prototype member (a native
function, or for the proto accessor the prototype object itself),
which is truthy and therefore passes through the or-else untouched. -/
inductive PromptValue
  | str (s : String)
  | protoMember (name : String)
deriving DecidableEq

/-- Model of OllamaService.getContentTypePrompt: the bracket lookup on
the object literal finds an own property first; failing that, the
prototype chain supplies the Object.prototype members, truthy
non-string values the function then returns as they are; the or-else
fallback applies only when the lookup yields undefined (or an own
falsy value, impossible for this table but modelled for fidelity). -/
def getContentTypePrompt (contentType : String) : PromptValue :=
  match contentTypePrompts.find? (fun p => p.fst = contentType) with
  | some p =>
    if p.snd = "" then PromptValue.str fallbackGuidance else PromptValue.str p.snd
  | none =>
    if contentType ∈ objectProtoMembers then PromptValue.protoMember contentType
    else PromptValue.str fallbackGuidance

/-- Interpolation of the looked-up guidance into the prompt template
literal. A string interpolates as itself; an inherited member would be
stringified by the engine (native-code function text or object text),
modelled as a marker naming the member — no theorem below depends on
that branch. -/
def promptValueText : PromptValue → String
  | PromptValue.str s => s
  | PromptValue.protoMember n => "[Object.prototype member " ++ n ++ "]"

/-- Prompt template literal of getH5PContentSuggestions, with the exact
newlines and eight-space continuation indentation of the source. -/
def buildH5PPrompt (contentType description : String) : String :=
  "As an H5P content creation assistant, help me create " ++ contentType
    ++ " content with the following description: " ++ description ++ ".\n        \n        "
    ++ promptValueText (getContentTypePrompt contentType)
    ++ "\n        \n        Please provide specific suggestions including:\n        1. Content Structure\n        2. Interactive Elements\n        3. Learning Objectives\n        4. Assessment Strategies\n        5. Technical Implementation Tips\n        \n        Format your response in clear sections with bullet points for easy implementation."

/-- One POST to the upstream /api/generate endpoint, recording the
streaming flag and the prompt the body carries. -/
structure GenCall where
  stream : Bool
  prompt : String
deriving DecidableEq

/-- Upstream calls made by OllamaService.chat: one, non-streaming. -/
def chatCalls (prompt : String) : List GenCall := [⟨false, prompt⟩]

/-- Upstream calls made by OllamaService.chatStream: one, streaming. -/
def chatStreamCalls (prompt : String) : List GenCall := [⟨true, prompt⟩]

/-- Upstream calls made by getH5PContentSuggestions: it builds the
prompt and awaits this.chat on it. -/
def getH5PContentSuggestionsCalls (contentType description : String) : List GenCall :=
  chatCalls (buildH5PPrompt contentType description)

/-- Upstream calls made by one invocation of the streaming suggestions
route handler: it awaits getH5PContentSuggestions and passes the
resulting suggestion text (here the oracle argument upstreamReply, the
response of the non-streaming call) to chatStream as the prompt. -/
def streamSuggestionsCalls (contentType description upstreamReply : String) : List GenCall :=
  getH5PContentSuggestionsCalls contentType description ++ chatStreamCalls upstreamReply

/-- Fixed apology text of the catch block in handleSubmit. -/
def apologyText : String :=
  "Sorry, I encountered an error while getting suggestions."

/-- Transport outcome one handleSubmit call observes: either the fetch
promise rejects before a response object exists, or a response is
obtained and its reader yields the listed decoded chunks in order,
after which the stream either ends cleanly or the next read rejects. -/
inductive Transport
  | fetchErr
  | ok (chunks : List String) (readErr : Bool)
deriving DecidableEq

/-- React component state the handleSubmit closure reads and writes. -/
structure ChatState where
  messages : List Message
  input : String
  isLoading : Bool
deriving DecidableEq

/-- Model of handleSubmit of the chat component. The guard returns at
once when the trimmed input is empty or a request is loading. Otherwise
the user message is echoed, input is cleared, and loading starts; on a
fetch rejection the catch appends the apology message; on a response,
the empty assistant placeholder is appended and the read loop folds the
chunks, with a late read rejection again appending the apology. The
finally block resets loading on every path. Every failure is caught
inside the function, so the caller always receives a normal (ok)
completion; the error side of Except is unreachable and records that
no rejection is ever surfaced. The none branch of the fold (the thrown
dereference on an empty log) cannot arise after the placeholder append. -/
def handleSubmit (s : ChatState) (t : Transport) (tsUser tsAsst tsErr : Nat) :
    Except String ChatState :=
  if lineNonblank s.input = false ∨ s.isLoading = true then
    Except.ok s
  else
    let msgs1 := s.messages ++ [⟨Role.user, s.input, tsUser⟩]
    match t with
    | Transport.fetchErr =>
      Except.ok ⟨msgs1 ++ [⟨Role.assistant, apologyText, tsErr⟩], "", false⟩
    | Transport.ok chunks readErr =>
      let msgs2 := msgs1 ++ [⟨Role.assistant, "", tsAsst⟩]
      match processStream msgs2 chunks with
      | some msgs3 =>
        if readErr then
          Except.ok ⟨msgs3 ++ [⟨Role.assistant, apologyText, tsErr⟩], "", false⟩
        else
          Except.ok ⟨msgs3, "", false⟩
      | none =>
        Except.ok ⟨msgs2 ++ [⟨Role.assistant, apologyText, tsErr⟩], "", false⟩

/-- C1. Chunk-boundary independence fails in the code: the same wire
bytes for the single fragment delta ab, read in one piece, yield final
assistant text ab, but read split inside the JSON line they yield the
empty text, because each read is split on newlines by itself with no
pending-line buffer, and both halves fail to parse and are skipped.
The first conjunct certifies the two reads concatenate to the same wire
text as the unsplit read. -/
theorem c1_chunk_boundary_dependence :
    ((lbrace ++ "\"respon") ++ ("se\":\"ab\"" ++ rbrace ++ "\n") = serializeResponseLine "ab")
    ∧ processStream [⟨Role.user, "q", 0⟩, ⟨Role.assistant, "", 1⟩]
        [serializeResponseLine "ab"]
        = some [⟨Role.user, "q", 0⟩, ⟨Role.assistant, "ab", 1⟩]
    ∧ processStream [⟨Role.user, "q", 0⟩, ⟨Role.assistant, "", 1⟩]
        [lbrace ++ "\"respon", "se\":\"ab\"" ++ rbrace ++ "\n"]
        = some [⟨Role.user, "q", 0⟩, ⟨Role.assistant, "", 1⟩] :=
  ⟨by decide, by decide, by decide⟩

/-- C2. The streaming suggestions route makes two upstream generation
calls per downstream request, not one: a non-streaming call carrying
the built prompt (inside getH5PContentSuggestions), then a streaming
call whose prompt is the reply text of the first call. -/
theorem c2_streaming_route_issues_two_upstream_calls :
    streamSuggestionsCalls "H5P.Course" "x" "r"
      = [⟨false, buildH5PPrompt "H5P.Course" "x"⟩, ⟨true, "r"⟩]
    ∧ (streamSuggestionsCalls "H5P.Course" "x" "r").length = 2
    ∧ (streamSuggestionsCalls "H5P.Course" "x" "r").map GenCall.stream = [false, true] :=
  ⟨rfl, rfl, rfl⟩

/-- C3. A line that does not parse as a fragment record is skipped: it
leaves the log untouched, does not terminate the fold, and every chunk
after it is still applied, so the whole stream behaves as if the bad
line were absent. -/
theorem c3_invalid_line_skipped (msgs : List Message) (pre post : List String) (L : String)
    (hnl : jsSplitNl L = [L]) (hbad : parseLine L = none) :
    processStream msgs (pre ++ L :: post) = processStream msgs (pre ++ post) := by
  have hchunk : ∀ m : List Message, processChunk m L = some m := by
    intro m
    unfold processChunk
    rw [hnl]
    simp [List.foldlM, processLineMsgs, hbad]
  unfold processStream
  rw [List.foldlM_append, List.foldlM_append]
  cases hp : pre.foldlM processChunk msgs with
  | none => rfl
  | some m => simp [List.foldlM, hchunk m]

/-- Closed instance of the C3 theorem: the bad line "not json" between
two valid fragment lines changes nothing. -/
theorem c3_invalid_line_skipped_witness :
    jsSplitNl "not json" = ["not json"]
    ∧ parseLine "not json" = none
    ∧ processStream [⟨Role.user, "q", 0⟩, ⟨Role.assistant, "", 1⟩]
        ([serializeResponseLine "a"] ++ "not json" :: [serializeResponseLine "b"])
      = processStream [⟨Role.user, "q", 0⟩, ⟨Role.assistant, "", 1⟩]
        ([serializeResponseLine "a"] ++ [serializeResponseLine "b"]) :=
  ⟨by decide, by decide,
    c3_invalid_line_skipped _ _ _ _ (by decide) (by decide)⟩

/-- C4. Once the abort signal fires, the pending read rejects with an
AbortError, the catch in chatStream returns, and no event after the
signal contributes a delta: the emitted deltas, and hence the
accumulated text, are exactly those of the reads before the signal. -/
theorem c4_no_delta_after_abort (pre post : List StreamEvent)
    (h : StreamEvent.abortSignal ∉ pre) :
    streamDeltas (pre ++ StreamEvent.abortSignal :: post) = streamDeltas pre
    ∧ String.join (streamDeltas (pre ++ StreamEvent.abortSignal :: post))
      = String.join (streamDeltas pre) := by
  have key : ∀ evs : List StreamEvent, StreamEvent.abortSignal ∉ evs →
      streamDeltas (evs ++ StreamEvent.abortSignal :: post) = streamDeltas evs := by
    intro evs
    induction evs with
    | nil => intro _; rfl
    | cons e rest ih =>
      intro hne
      cases e with
      | read c =>
        have h2 : StreamEvent.abortSignal ∉ rest :=
          fun hm => hne (List.mem_cons_of_mem _ hm)
        simp only [List.cons_append, streamDeltas]
        exact congrArg (chunkDeltas c ++ ·) (ih h2)
      | abortSignal => exact absurd (List.mem_cons_self _ _) hne
  exact ⟨key pre h, by rw [key pre h]⟩

/-- Closed instance of the C4 theorem: a read of one fragment line
before the abort and a read after it; the deltas are those of the first
read only. -/
theorem c4_no_delta_after_abort_witness :
    StreamEvent.abortSignal ∉ [StreamEvent.read (serializeResponseLine "ab")]
    ∧ (streamDeltas ([StreamEvent.read (serializeResponseLine "ab")]
          ++ StreamEvent.abortSignal :: [StreamEvent.read (serializeResponseLine "cd")])
        = streamDeltas [StreamEvent.read (serializeResponseLine "ab")]
      ∧ String.join (streamDeltas ([StreamEvent.read (serializeResponseLine "ab")]
          ++ StreamEvent.abortSignal :: [StreamEvent.read (serializeResponseLine "cd")]))
        = String.join (streamDeltas [StreamEvent.read (serializeResponseLine "ab")])) :=
  ⟨by decide, c4_no_delta_after_abort _ _ (by decide)⟩

/-- C5. stopStream is idempotent and safe after natural completion: a
second stopStream right after a first one leaves the state unchanged
and fires no abort, and stopStream after the finally block of
chatStream has cleared the controller slot is the same no-op; the
method throws on no path (it is a total function). -/
theorem c5_stopStream_idempotent (s : OllamaServiceState) :
    stopStream (stopStream s).fst = ((stopStream s).fst, false)
    ∧ stopStream (chatStreamCleanup s) = (chatStreamCleanup s, false) := by
  obtain ⟨b, m, ac⟩ := s
  cases ac <;> exact ⟨rfl, rfl⟩

/-- C6 counterexample. submit while a stream is active (isLoading true)
returns normally with the state untouched: the result is Except.ok of
the unchanged state, not an Except.error, so the rejection is a silent
no-op and nothing is surfaced synchronously to the caller, contrary to
the claim. -/
theorem c6_rejection_not_surfaced_counterexample :
    handleSubmit ⟨[⟨Role.user, "q", 0⟩], "hello", true⟩ Transport.fetchErr 0 0 0
      = Except.ok ⟨[⟨Role.user, "q", 0⟩], "hello", true⟩ := by
  rfl

/-- C6 amended. submit while a stream is active is rejected without
mutating the message log, but the rejection is silent: handleSubmit
returns normally with the state unchanged and gives the caller no
error signal. -/
theorem c6_submit_rejected_silently (s : ChatState) (t : Transport) (a b c : Nat)
    (h : s.isLoading = true) :
    handleSubmit s t a b c = Except.ok s := by
  unfold handleSubmit
  rw [if_pos (Or.inr h)]

/-- Closed instance of the amended C6 theorem. -/
theorem c6_submit_rejected_silently_witness :
    (ChatState.mk [⟨Role.user, "q", 0⟩] "hi" true).isLoading = true
    ∧ handleSubmit ⟨[⟨Role.user, "q", 0⟩], "hi", true⟩ Transport.fetchErr 1 2 3
      = Except.ok ⟨[⟨Role.user, "q", 0⟩], "hi", true⟩ :=
  ⟨rfl, c6_submit_rejected_silently _ _ 1 2 3 rfl⟩

/-- C7. Happy path: with the description input of the scenario and a
transport delivering the three serialized fragment lines with deltas
Struct, ure-colon-space and dots, the final log is exactly the user
message followed by one assistant message whose text is the
concatenation of the three deltas, and loading has ended. The content
type only shapes the prompt sent upstream; the consumer-side fold does
not depend on it. -/
theorem c7_happy_path_end_to_end :
    handleSubmit ⟨[], "intro to photosynthesis", false⟩
      (Transport.ok [serializeResponseLine "Struct", serializeResponseLine "ure: ",
        serializeResponseLine "..."] false) 0 1 2
      = Except.ok ⟨[⟨Role.user, "intro to photosynthesis", 0⟩,
          ⟨Role.assistant, "Structure: ...", 1⟩], "", false⟩ := by
  rfl

/-- C8 counterexample. When the response object is obtained but the
connection drops before any byte of body data, the catch appends a new
assistant message with the apology text: the log ends with three
messages, the still-empty placeholder at position one surviving next to
the apology, instead of the placeholder text being replaced as the
claim states. -/
theorem c8_apology_not_replacement_counterexample :
    handleSubmit ⟨[], "intro to photosynthesis", false⟩ (Transport.ok [] true) 0 1 2
      = Except.ok ⟨[⟨Role.user, "intro to photosynthesis", 0⟩, ⟨Role.assistant, "", 1⟩,
          ⟨Role.assistant, apologyText, 2⟩], "", false⟩ := by
  rfl

/-- C8 amended. On a pre-byte failure the apology arrives as a newly
appended assistant message: when the fetch itself rejects, no
placeholder was created and the log gains the user message and the
apology message; when the response was obtained and the first read
rejects, the empty placeholder remains in the log before the appended
apology. In both cases the final assistant message text equals the
apology text, loading ends (the consumer is idle again), and a
subsequent submit passes the guard. -/
theorem c8_failure_appends_apology (s : ChatState) (a b c : Nat)
    (h1 : s.isLoading = false) (h2 : lineNonblank s.input = true) :
    handleSubmit s Transport.fetchErr a b c
      = Except.ok ⟨s.messages ++ [⟨Role.user, s.input, a⟩,
          ⟨Role.assistant, apologyText, c⟩], "", false⟩
    ∧ handleSubmit s (Transport.ok [] true) a b c
      = Except.ok ⟨s.messages ++ [⟨Role.user, s.input, a⟩, ⟨Role.assistant, "", b⟩,
          ⟨Role.assistant, apologyText, c⟩], "", false⟩ := by
  have hcond : ¬ (lineNonblank s.input = false ∨ s.isLoading = true) := by
    simp [h1, h2]
  constructor
  · unfold handleSubmit
    rw [if_neg hcond]
    simp
  · unfold handleSubmit
    rw [if_neg hcond]
    simp [processStream, List.foldlM]

/-- Closed instance of the amended C8 theorem. -/
theorem c8_failure_appends_apology_witness :
    (ChatState.mk [⟨Role.user, "earlier", 5⟩] "more help" false).isLoading = false
    ∧ lineNonblank "more help" = true
    ∧ (handleSubmit ⟨[⟨Role.user, "earlier", 5⟩], "more help", false⟩ Transport.fetchErr 6 7 8
        = Except.ok ⟨[⟨Role.user, "earlier", 5⟩] ++ [⟨Role.user, "more help", 6⟩,
            ⟨Role.assistant, apologyText, 8⟩], "", false⟩
      ∧ handleSubmit ⟨[⟨Role.user, "earlier", 5⟩], "more help", false⟩ (Transport.ok [] true) 6 7 8
        = Except.ok ⟨[⟨Role.user, "earlier", 5⟩] ++ [⟨Role.user, "more help", 6⟩,
            ⟨Role.assistant, "", 7⟩, ⟨Role.assistant, apologyText, 8⟩], "", false⟩) :=
  ⟨rfl, by decide, c8_failure_appends_apology _ 6 7 8 rfl (by decide)⟩

/-- C9. Frame property of one fragment application: it succeeds on any
non-empty log, preserves the log length, every message before the last,
and the role and timestamp of every message; when the last message has
the assistant role only its content grows by the delta, and when it
does not, the log is returned entirely unchanged. -/
theorem c9_applyFragment_frame (msgs : List Message) (delta : String) (h : msgs ≠ []) :
    ∃ last msgs', msgs.getLast? = some last
      ∧ applyFragment msgs delta = some msgs'
      ∧ msgs'.length = msgs.length
      ∧ msgs'.dropLast = msgs.dropLast
      ∧ msgs'.map Message.role = msgs.map Message.role
      ∧ msgs'.map Message.timestamp = msgs.map Message.timestamp
      ∧ (last.role = Role.assistant →
          msgs' = msgs.dropLast ++ [{ last with content := last.content ++ delta }])
      ∧ (last.role ≠ Role.assistant → msgs' = msgs) := by
  rcases List.eq_nil_or_concat' msgs with rfl | ⟨ms, last, rfl⟩
  · exact absurd rfl h
  · have happ : applyFragment (ms ++ [last]) delta
        = if last.role = Role.assistant
          then some (ms ++ [{ last with content := last.content ++ delta }])
          else some (ms ++ [last]) := by
      simp only [applyFragment, List.getLast?_concat, List.dropLast_concat]
    by_cases hr : last.role = Role.assistant
    · refine ⟨last, ms ++ [{ last with content := last.content ++ delta }],
        List.getLast?_concat ms, by rw [happ, if_pos hr], ?_, ?_, ?_, ?_, ?_, ?_⟩
      · simp
      · simp
      · simp
      · simp
      · intro _; rw [List.dropLast_concat]
      · intro hn; exact absurd hr hn
    · refine ⟨last, ms ++ [last], List.getLast?_concat ms, by rw [happ, if_neg hr],
        rfl, rfl, rfl, rfl, ?_, fun _ => rfl⟩
      intro ha; exact absurd ha hr

/-- Closed instance of the C9 theorem on a two-message log. -/
theorem c9_applyFragment_frame_witness :
    ([⟨Role.user, "a", 0⟩, ⟨Role.assistant, "b", 1⟩] : List Message) ≠ []
    ∧ ∃ last msgs',
        ([⟨Role.user, "a", 0⟩, ⟨Role.assistant, "b", 1⟩] : List Message).getLast? = some last
      ∧ applyFragment [⟨Role.user, "a", 0⟩, ⟨Role.assistant, "b", 1⟩] "x" = some msgs'
      ∧ msgs'.length = ([⟨Role.user, "a", 0⟩, ⟨Role.assistant, "b", 1⟩] : List Message).length
      ∧ msgs'.dropLast = ([⟨Role.user, "a", 0⟩, ⟨Role.assistant, "b", 1⟩] : List Message).dropLast
      ∧ msgs'.map Message.role
          = ([⟨Role.user, "a", 0⟩, ⟨Role.assistant, "b", 1⟩] : List Message).map Message.role
      ∧ msgs'.map Message.timestamp
          = ([⟨Role.user, "a", 0⟩, ⟨Role.assistant, "b", 1⟩] : List Message).map Message.timestamp
      ∧ (last.role = Role.assistant →
          msgs' = ([⟨Role.user, "a", 0⟩, ⟨Role.assistant, "b", 1⟩] : List Message).dropLast
            ++ [{ last with content := last.content ++ "x" }])
      ∧ (last.role ≠ Role.assistant →
          msgs' = [⟨Role.user, "a", 0⟩, ⟨Role.assistant, "b", 1⟩]) :=
  ⟨by decide, c9_applyFragment_frame [⟨Role.user, "a", 0⟩, ⟨Role.assistant, "b", 1⟩] "x" (by decide)⟩

/-- C10 counterexample. The content type toString is not one of the six
table keys, yet the bracket lookup reaches the inherited
Object.prototype.toString through the prototype chain; that truthy
member passes through the or-else, so getContentTypePrompt returns the
inherited member, not the fallback string and not a string at all,
contrary to the claim that every input outside the table maps to
exactly the fallback string. -/
theorem c10_prototype_lookup_counterexample :
    "toString" ∉ contentTypePrompts.map Prod.fst
    ∧ getContentTypePrompt "toString" = PromptValue.protoMember "toString"
    ∧ getContentTypePrompt "toString" ≠ PromptValue.str fallbackGuidance :=
  ⟨by decide, by decide, by decide⟩

/-- C10 amended. getContentTypePrompt maps each of the six known
content types to its fixed guidance string; every other content type
that does not name an inherited Object.prototype member maps to
exactly the fallback string; a content type naming an inherited
Object.prototype member (toString, constructor, proto accessor, ...)
yields that truthy inherited member instead of the fallback; and
whenever the result is a string it is non-empty. -/
theorem c10_getContentTypePrompt_cases (ct : String) :
    (∀ p ∈ contentTypePrompts, getContentTypePrompt p.fst = PromptValue.str p.snd)
    ∧ (ct ∉ contentTypePrompts.map Prod.fst → ct ∉ objectProtoMembers →
        getContentTypePrompt ct = PromptValue.str fallbackGuidance)
    ∧ (ct ∉ contentTypePrompts.map Prod.fst → ct ∈ objectProtoMembers →
        getContentTypePrompt ct = PromptValue.protoMember ct)
    ∧ getContentTypePrompt ct ≠ PromptValue.str "" := by
  have hfind : ∀ q, contentTypePrompts.find? (fun p => p.fst = ct) = some q →
      ct ∈ contentTypePrompts.map Prod.fst := by
    intro q hf
    have heq : q.fst = ct := by
      have hq := List.find?_some hf
      simpa using hq
    exact heq ▸ List.mem_map_of_mem Prod.fst (List.mem_of_find?_eq_some hf)
  refine ⟨?_, ?_, ?_, ?_⟩
  · intro p hp
    simp only [contentTypePrompts, List.mem_cons, List.not_mem_nil, or_false] at hp
    rcases hp with rfl | rfl | rfl | rfl | rfl | rfl <;> decide
  · intro h1 h2
    cases hf : contentTypePrompts.find? (fun p => p.fst = ct) with
    | none =>
      unfold getContentTypePrompt
      rw [hf]
      show (if ct ∈ objectProtoMembers then PromptValue.protoMember ct
        else PromptValue.str fallbackGuidance) = PromptValue.str fallbackGuidance
      rw [if_neg h2]
    | some q => exact absurd (hfind q hf) h1
  · intro h1 h2
    cases hf : contentTypePrompts.find? (fun p => p.fst = ct) with
    | none =>
      unfold getContentTypePrompt
      rw [hf]
      show (if ct ∈ objectProtoMembers then PromptValue.protoMember ct
        else PromptValue.str fallbackGuidance) = PromptValue.protoMember ct
      rw [if_pos h2]
    | some q => exact absurd (hfind q hf) h1
  · cases hf : contentTypePrompts.find? (fun p => p.fst = ct) with
    | none =>
      unfold getContentTypePrompt
      rw [hf]
      show (if ct ∈ objectProtoMembers then PromptValue.protoMember ct
        else PromptValue.str fallbackGuidance) ≠ PromptValue.str ""
      by_cases hm : ct ∈ objectProtoMembers
      · rw [if_pos hm]
        intro hcon
        cases hcon
      · rw [if_neg hm]
        decide
    | some q =>
      have hq := List.mem_of_find?_eq_some hf
      simp only [contentTypePrompts, List.mem_cons, List.not_mem_nil, or_false] at hq
      have hval : getContentTypePrompt ct
          = if q.snd = "" then PromptValue.str fallbackGuidance else PromptValue.str q.snd := by
        unfold getContentTypePrompt
        rw [hf]
      rcases hq with rfl | rfl | rfl | rfl | rfl | rfl <;> rw [hval] <;> decide

/-- Closed instance of the amended C10 theorem: a known key, an unknown
key outside the prototype chain, and an inherited member name. -/
theorem c10_getContentTypePrompt_cases_witness :
    getContentTypePrompt "H5P.Course"
      = PromptValue.str "Structure your course with: main topics, subtopics, learning objectives, assessment criteria, and progression rules."
    ∧ "H5P.Foo" ∉ contentTypePrompts.map Prod.fst
    ∧ "H5P.Foo" ∉ objectProtoMembers
    ∧ getContentTypePrompt "H5P.Foo" = PromptValue.str fallbackGuidance
    ∧ "hasOwnProperty" ∉ contentTypePrompts.map Prod.fst
    ∧ "hasOwnProperty" ∈ objectProtoMembers
    ∧ getContentTypePrompt "hasOwnProperty" = PromptValue.protoMember "hasOwnProperty"
    ∧ getContentTypePrompt "H5P.Foo" ≠ PromptValue.str "" :=
  ⟨(c10_getContentTypePrompt_cases "H5P.Course").1
      ("H5P.Course", "Structure your course with: main topics, subtopics, learning objectives, assessment criteria, and progression rules.")
      (by decide),
    by decide, by decide,
    (c10_getContentTypePrompt_cases "H5P.Foo").2.1 (by decide) (by decide),
    by decide, by decide,
    (c10_getContentTypePrompt_cases "hasOwnProperty").2.2.1 (by decide) (by decide),
    (c10_getContentTypePrompt_cases "H5P.Foo").2.2.2⟩
